import Mathlib

/-!
Verification of the Chain shape of this planck.js fork.

The repository source under scrutiny is the ChainShape class. The chain
stores a free-form sequence of line segments; each consecutive pair of
stored vertices is one child edge. Surrounding collaborators (2D vectors,
rotations, transforms, AABBs, the Edge shape, the Settings module) are not
part of the provided sources; where a claim depends on them they are
modelled from the specification and marked as such in their doc comments.

All scalar arithmetic is embedded over the rationals; the vertex buffer is
a Lean list with value semantics (the source clones every vertex it
stores, so aliasing is not observable at the level of the verified
properties).
-/

namespace Planck

/-- A 2D vector with rational coordinates, standing for the library's
pair-of-numbers vector value. -/
structure Vec2 where
  x : ℚ
  y : ℚ
  deriving DecidableEq, Repr

/-- The zero vector, standing for Vec2.zero() of the library. -/
def Vec2.zero : Vec2 := ⟨0, 0⟩

/-- Componentwise subtraction of vectors. -/
def Vec2.sub (a b : Vec2) : Vec2 := ⟨a.x - b.x, a.y - b.y⟩

/-- Dot product of two vectors. -/
def Vec2.dot (a b : Vec2) : ℚ := a.x * b.x + a.y * b.y

/-- Squared distance between two points, as used by the degenerate-segment
assertions of the chain constructors. -/
def Vec2.distanceSquared (a b : Vec2) : ℚ :=
  (a.x - b.x) * (a.x - b.x) + (a.y - b.y) * (a.y - b.y)

/-- Modelled from the spec: the Settings module is not among the provided
sources. The spec lists the linear slop and related tolerances as external
immutable configuration; the concrete values are immaterial to every claim
proved below. -/
def Settings.linearSlop : ℚ := 5 / 1000

/-- Modelled from the spec: squared linear slop, the threshold of the
near-zero-length-segment assertion. -/
def Settings.linearSlopSquared : ℚ := Settings.linearSlop * Settings.linearSlop

/-- Modelled from the spec: the rounding radius given to polygon-like
shapes, used as the chain's (and each child edge's) rounding radius. -/
def Settings.polygonRadius : ℚ := 2 * Settings.linearSlop

/-- Modelled from the spec: a rotation, stored as the cosine and sine of
the angle. The Rot class is not among the provided sources. -/
structure Rot where
  s : ℚ
  c : ℚ
  deriving DecidableEq, Repr

/-- The identity rotation. -/
def Rot.identity : Rot := ⟨0, 1⟩

/-- Modelled from the spec: rotate a vector by a rotation. -/
def Rot.mulVec2 (q : Rot) (v : Vec2) : Vec2 :=
  ⟨q.c * v.x - q.s * v.y, q.s * v.x + q.c * v.y⟩

/-- Modelled from the spec: rotate a vector by the inverse of a rotation,
the library's Rot.mulTVec2. -/
def Rot.mulTVec2 (q : Rot) (v : Vec2) : Vec2 :=
  ⟨q.c * v.x + q.s * v.y, -q.s * v.x + q.c * v.y⟩

/-- Modelled from the spec: a rigid transform, a rotation followed by a
translation. The Transform class is not among the provided sources. -/
structure Transform where
  p : Vec2
  q : Rot
  deriving DecidableEq, Repr

/-- The identity transform. -/
def Transform.identity : Transform := ⟨Vec2.zero, Rot.identity⟩

/-- Modelled from the spec: apply a transform to a point. -/
def Transform.mulVec2 (xf : Transform) (v : Vec2) : Vec2 :=
  ⟨xf.q.c * v.x - xf.q.s * v.y + xf.p.x, xf.q.s * v.x + xf.q.c * v.y + xf.p.y⟩

/-- An axis-aligned bounding box, a pair of min and max points. -/
structure AABB where
  lowerBound : Vec2
  upperBound : Vec2
  deriving DecidableEq, Repr

/-- Modelled from the spec: the AABB class is not among the provided
sources; the spec describes an AABB as an axis-aligned box with min and
max points. combinePoints builds the box of two points: the componentwise
minimum as the lower bound and the componentwise maximum as the upper
bound. -/
def AABB.combinePoints (a b : Vec2) : AABB :=
  ⟨⟨min a.x b.x, min a.y b.y⟩, ⟨max a.x b.x, max a.y b.y⟩⟩

/-- Ray-cast input: the ray goes from p1 towards p2, cut off at
maxFraction of that span. -/
structure RayCastInput where
  p1 : Vec2
  p2 : Vec2
  maxFraction : ℚ
  deriving DecidableEq, Repr

/-- Ray-cast output: the surface normal at the hit and the fraction of the
ray at which the hit occurs. A miss is represented by none at the call
site. -/
structure RayCastOutput where
  normal : Vec2
  fraction : ℚ
  deriving DecidableEq, Repr

/-- The Edge shape record: the two segment endpoints, the optional ghost
vertices on either side with their presence flags, the rounding radius and
the type tag. -/
structure Edge where
  m_type : String
  m_radius : ℚ
  m_vertex1 : Vec2
  m_vertex2 : Vec2
  m_vertex0 : Option Vec2
  m_vertex3 : Option Vec2
  m_hasVertex0 : Bool
  m_hasVertex3 : Bool
  deriving DecidableEq, Repr

/-- Modelled from the spec: the EdgeShape constructor is not among the
provided sources. It stores clones of the two endpoints, leaves both ghost
vertices absent, and takes the polygon rounding radius. -/
def Edge.construct (v1 v2 : Vec2) : Edge :=
  { m_type := "edge"
    m_radius := Settings.polygonRadius
    m_vertex1 := v1
    m_vertex2 := v2
    m_vertex0 := none
    m_vertex3 := none
    m_hasVertex0 := false
    m_hasVertex3 := false }

/-- Modelled from the spec: EdgeShape.rayCast is not among the provided
sources; the spec gives only the capability rayCast(input, transform) to
hit or miss. The model solves the ray against the segment in the shape's
local frame: the ray is brought local, the crossing parameter t of the ray
with the segment's supporting line is computed, rejected outside
[0, maxFraction], then the position s along the segment is computed and
rejected outside [0, 1]. The reported normal is the segment's perpendicular
rotated back to world coordinates, oriented against the ray; the model
keeps it unnormalised (unit scaling is not expressible over the rationals
and cancels out of t, so hit, miss and fraction are unaffected). The
childIndex argument is accepted and ignored, as an edge has a single
child. -/
def Edge.rayCast (edge : Edge) (input : RayCastInput) (xf : Transform)
    (childIndex : Nat) : Option RayCastOutput :=
  let p1 := Rot.mulTVec2 xf.q (Vec2.sub input.p1 xf.p)
  let p2 := Rot.mulTVec2 xf.q (Vec2.sub input.p2 xf.p)
  let d := Vec2.sub p2 p1
  let v1 := edge.m_vertex1
  let v2 := edge.m_vertex2
  let e := Vec2.sub v2 v1
  let normal : Vec2 := ⟨e.y, -e.x⟩
  let numerator := Vec2.dot normal (Vec2.sub v1 p1)
  let denominator := Vec2.dot normal d
  if denominator = 0 then none
  else
    let t := numerator / denominator
    if t < 0 ∨ input.maxFraction < t then none
    else
      let q : Vec2 := ⟨p1.x + t * d.x, p1.y + t * d.y⟩
      let r := Vec2.sub v2 v1
      let rr := Vec2.dot r r
      if rr = 0 then none
      else
        let s := Vec2.dot (Vec2.sub q v1) r / rr
        if s < 0 ∨ 1 < s then none
        else
          let worldNormal := Rot.mulVec2 xf.q normal
          if numerator > 0 then
            some ⟨⟨-worldNormal.x, -worldNormal.y⟩, t⟩
          else
            some ⟨worldNormal, t⟩

/-- The distance proxy record filled by computeDistanceProxy: the vertex
buffer, the active vertex list, the vertex count and the rounding
radius. -/
structure DistanceProxy where
  m_buffer : List Vec2
  m_vertices : List Vec2
  m_count : Nat
  m_radius : ℚ
  deriving DecidableEq, Repr

/-- The mass data record filled by computeMass: mass, center of mass, and
rotational inertia. -/
structure MassData where
  mass : ℚ
  center : Vec2
  I : ℚ
  deriving DecidableEq, Repr

/-- The Chain shape state: the stored vertex buffer, its count, the
optional ghost vertices beyond either end with their presence flags, the
loop flag and the rounding radius. -/
structure Chain where
  m_vertices : List Vec2
  m_count : Nat
  m_prevVertex : Option Vec2
  m_nextVertex : Option Vec2
  m_hasPrevVertex : Bool
  m_hasNextVertex : Bool
  m_isLoop : Bool
  m_radius : ℚ
  deriving DecidableEq, Repr

/-- The freshly constructed chain state, before _createLoop or
_createChain runs: empty buffer, zero count, no connectivity, polygon
rounding radius. -/
def Chain.init : Chain :=
  { m_vertices := []
    m_count := 0
    m_prevVertex := none
    m_nextVertex := none
    m_hasPrevVertex := false
    m_hasNextVertex := false
    m_isLoop := false
    m_radius := Settings.polygonRadius }

/-- Chain._createLoop with assertions compiled out: store a clone of every
input vertex followed by a clone of the first, set the count to one more
than the input length, and wire the ghost vertices so the loop is closed:
the previous ghost is the second-to-last stored vertex and the next ghost
is the second stored vertex, both flagged present. -/
def Chain._createLoop (c : Chain) (vertices : List Vec2) : Chain :=
  let stored := vertices ++ [vertices.getD 0 Vec2.zero]
  { c with
    m_vertices := stored
    m_count := vertices.length + 1
    m_prevVertex := some (stored.getD (vertices.length + 1 - 2) Vec2.zero)
    m_nextVertex := some (stored.getD 1 Vec2.zero)
    m_hasPrevVertex := true
    m_hasNextVertex := true }

/-- Chain._createChain with assertions compiled out: store a clone of
every input vertex, set the count to the input length, and leave both
ghost vertices absent. -/
def Chain._createChain (c : Chain) (vertices : List Vec2) : Chain :=
  { c with
    m_vertices := vertices
    m_count := vertices.length
    m_hasPrevVertex := false
    m_hasNextVertex := false
    m_prevVertex := none
    m_nextVertex := none }

/-- The Chain constructor with assertions compiled out: start from the
fresh state, record the loop flag, and when the vertex array is non-empty
dispatch to _createLoop or _createChain. -/
def Chain.construct (vertices : List Vec2) (loop : Bool) : Chain :=
  let c := { Chain.init with m_isLoop := loop }
  if vertices.length ≠ 0 then
    if loop then c._createLoop vertices else c._createChain vertices
  else c

/-- One assertion guard: when assertions are enabled and the condition
fails, signal an error, otherwise pass. With assertions disabled this is
always a pass, mirroring the _ASSERT short-circuit of the source. -/
def assertGuard (assertEnabled : Bool) (cond : Bool) : Except String Unit :=
  if assertEnabled && !cond then Except.error "assert" else Except.ok ()

/-- The degenerate-segment scan of the chain constructors: every pair of
consecutive input vertices must be farther apart than the linear slop. -/
def segmentsOk (vertices : List Vec2) : Bool :=
  (List.range (vertices.length - 1)).all fun i =>
    decide (Settings.linearSlopSquared <
      Vec2.distanceSquared (vertices.getD i Vec2.zero) (vertices.getD (i + 1) Vec2.zero))

/-- Chain._createLoop with its assertions made explicit: guard that the
chain is fresh, that at least three vertices were supplied and that no
segment is degenerate, then build the loop. -/
def Chain.createLoopE (assertEnabled : Bool) (c : Chain) (vertices : List Vec2) :
    Except String Chain := do
  assertGuard assertEnabled (c.m_vertices.length == 0 && c.m_count == 0)
  assertGuard assertEnabled (decide (3 ≤ vertices.length))
  assertGuard assertEnabled (segmentsOk vertices)
  Except.ok (c._createLoop vertices)

/-- Chain._createChain with its assertions made explicit: guard that the
chain is fresh, that at least two vertices were supplied and that no
segment is degenerate, then build the chain. -/
def Chain.createChainE (assertEnabled : Bool) (c : Chain) (vertices : List Vec2) :
    Except String Chain := do
  assertGuard assertEnabled (c.m_vertices.length == 0 && c.m_count == 0)
  assertGuard assertEnabled (decide (2 ≤ vertices.length))
  assertGuard assertEnabled (segmentsOk vertices)
  Except.ok (c._createChain vertices)

/-- The Chain constructor with its assertions made explicit, dispatching
to the guarded loop or chain builder. -/
def Chain.constructE (assertEnabled : Bool) (vertices : List Vec2) (loop : Bool) :
    Except String Chain :=
  let c := { Chain.init with m_isLoop := loop }
  if vertices.length ≠ 0 then
    if loop then Chain.createLoopE assertEnabled c vertices
    else Chain.createChainE assertEnabled c vertices
  else Except.ok c

/-- Chain.getChildCount: the number of child edges, one less than the
stored vertex count. Returned as an integer since the source computes it
with number arithmetic. -/
def Chain.getChildCount (c : Chain) : Int :=
  (c.m_count : Int) - 1

/-- Chain.getVertex: a stored vertex by index, wrapping the index equal to
the count back to the first stored vertex. -/
def Chain.getVertex (c : Chain) (index : Nat) : Vec2 :=
  if index < c.m_count then c.m_vertices.getD index Vec2.zero
  else c.m_vertices.getD 0 Vec2.zero

/-- Chain.getChildEdge: fill an edge with the two endpoints of child
segment childIndex, the ghost vertex before it (the preceding stored
vertex, or the chain's previous ghost for the first child) and the ghost
vertex after it (the following stored vertex, or the chain's next ghost
for the last child). -/
def Chain.getChildEdge (c : Chain) (childIndex : Nat) : Edge :=
  { m_type := "edge"
    m_radius := c.m_radius
    m_vertex1 := c.m_vertices.getD childIndex Vec2.zero
    m_vertex2 := c.m_vertices.getD (childIndex + 1) Vec2.zero
    m_vertex0 :=
      if 0 < childIndex then some (c.m_vertices.getD (childIndex - 1) Vec2.zero)
      else c.m_prevVertex
    m_hasVertex0 := if 0 < childIndex then true else c.m_hasPrevVertex
    m_vertex3 :=
      if childIndex < c.m_count - 2 then some (c.m_vertices.getD (childIndex + 2) Vec2.zero)
      else c.m_nextVertex
    m_hasVertex3 := if childIndex < c.m_count - 2 then true else c.m_hasNextVertex }

/-- Chain.testPoint: bring the point to local coordinates and run an
even-odd horizontal-ray crossing count over the stored vertex sequence. -/
def Chain.testPoint (c : Chain) (xf : Transform) (p : Vec2) : Bool :=
  let pLocal := Rot.mulTVec2 xf.q (Vec2.sub p xf.p)
  let x := pLocal.x
  let y := pLocal.y
  (List.range (c.m_vertices.length - 1)).foldl
    (fun inside i =>
      let p1 := c.m_vertices.getD i Vec2.zero
      let p2 := c.m_vertices.getD (i + 1) Vec2.zero
      if (p1.y < y ∧ y ≤ p2.y) ∨ (p2.y < y ∧ y ≤ p1.y) then
        if p1.x + (y - p1.y) / (p2.y - p1.y) * (p2.x - p1.x) < x then !inside
        else inside
      else inside)
    false

/-- Chain.rayCast: build an Edge shape from the two endpoints of the child
segment and ray-cast that edge. -/
def Chain.rayCast (c : Chain) (input : RayCastInput) (xf : Transform)
    (childIndex : Nat) : Option RayCastOutput :=
  let edgeShape := Edge.construct (c.getVertex childIndex) (c.getVertex (childIndex + 1))
  edgeShape.rayCast input xf 0

/-- Chain.computeAABB: the box of the two transformed endpoints of the
child segment. -/
def Chain.computeAABB (c : Chain) (xf : Transform) (childIndex : Nat) : AABB :=
  let v1 := Transform.mulVec2 xf (c.getVertex childIndex)
  let v2 := Transform.mulVec2 xf (c.getVertex (childIndex + 1))
  AABB.combinePoints v1 v2

/-- Chain.computeMass: chains have zero mass, center at the origin and
zero inertia, independent of the density. -/
def Chain.computeMass (c : Chain) (density : ℚ) : MassData :=
  { mass := 0, center := Vec2.zero, I := 0 }

/-- Chain.computeDistanceProxy: a proxy over exactly the two endpoints of
the child segment, with vertex count two and the chain's rounding
radius. -/
def Chain.computeDistanceProxy (c : Chain) (childIndex : Nat) : DistanceProxy :=
  let buffer := [c.getVertex childIndex, c.getVertex (childIndex + 1)]
  { m_buffer := buffer
    m_vertices := buffer
    m_count := 2
    m_radius := c.m_radius }

/-! Concrete data used by the witnesses. -/

/-- A concrete four-vertex open chain used by the witnesses below. -/
def chainW : Chain :=
  Chain.construct [⟨0, 0⟩, ⟨1, 0⟩, ⟨2, 1⟩, ⟨3, 0⟩] false

/-- Claim C1: for every chain and every valid childIndex in
[0, m_count - 2], getChildEdge produces an edge whose two main vertices
are m_vertices[childIndex] and m_vertices[childIndex + 1], whose ghost
vertex0 is m_vertices[childIndex - 1] (flagged present) when
childIndex > 0 and otherwise the previous ghost vertex of the chain with
flag m_hasPrevVertex, and whose ghost vertex3 is
m_vertices[childIndex + 2] (flagged present) when childIndex < m_count - 2
and otherwise the next ghost vertex of the chain with flag
m_hasNextVertex. -/
theorem Chain.getChildEdge_spec (c : Chain) (childIndex : Nat)
    (h : childIndex + 2 ≤ c.m_count) :
    (c.getChildEdge childIndex).m_vertex1 = c.m_vertices.getD childIndex Vec2.zero ∧
    (c.getChildEdge childIndex).m_vertex2 = c.m_vertices.getD (childIndex + 1) Vec2.zero ∧
    (0 < childIndex →
      (c.getChildEdge childIndex).m_vertex0 =
        some (c.m_vertices.getD (childIndex - 1) Vec2.zero) ∧
      (c.getChildEdge childIndex).m_hasVertex0 = true) ∧
    (childIndex = 0 →
      (c.getChildEdge childIndex).m_vertex0 = c.m_prevVertex ∧
      (c.getChildEdge childIndex).m_hasVertex0 = c.m_hasPrevVertex) ∧
    (childIndex < c.m_count - 2 →
      (c.getChildEdge childIndex).m_vertex3 =
        some (c.m_vertices.getD (childIndex + 2) Vec2.zero) ∧
      (c.getChildEdge childIndex).m_hasVertex3 = true) ∧
    (c.m_count - 2 ≤ childIndex →
      (c.getChildEdge childIndex).m_vertex3 = c.m_nextVertex ∧
      (c.getChildEdge childIndex).m_hasVertex3 = c.m_hasNextVertex) := by
  unfold Chain.getChildEdge
  refine ⟨rfl, rfl, ?_, ?_, ?_, ?_⟩
  · intro hpos
    simp [hpos]
  · intro hzero
    subst hzero
    simp
  · intro hlt
    simp [hlt]
  · intro hge
    have hnot : ¬ childIndex < c.m_count - 2 := by omega
    simp [hnot]

/-- Witness for C1 at the concrete chain chainW and the interior child
index 1. -/
theorem Chain.getChildEdge_spec_witness :
    1 + 2 ≤ chainW.m_count ∧
    ((chainW.getChildEdge 1).m_vertex1 = chainW.m_vertices.getD 1 Vec2.zero ∧
     (chainW.getChildEdge 1).m_vertex2 = chainW.m_vertices.getD 2 Vec2.zero ∧
     (0 < 1 →
       (chainW.getChildEdge 1).m_vertex0 = some (chainW.m_vertices.getD 0 Vec2.zero) ∧
       (chainW.getChildEdge 1).m_hasVertex0 = true) ∧
     ((1 : Nat) = 0 →
       (chainW.getChildEdge 1).m_vertex0 = chainW.m_prevVertex ∧
       (chainW.getChildEdge 1).m_hasVertex0 = chainW.m_hasPrevVertex) ∧
     (1 < chainW.m_count - 2 →
       (chainW.getChildEdge 1).m_vertex3 = some (chainW.m_vertices.getD 3 Vec2.zero) ∧
       (chainW.getChildEdge 1).m_hasVertex3 = true) ∧
     (chainW.m_count - 2 ≤ 1 →
       (chainW.getChildEdge 1).m_vertex3 = chainW.m_nextVertex ∧
       (chainW.getChildEdge 1).m_hasVertex3 = chainW.m_hasNextVertex)) :=
  ⟨by decide, Chain.getChildEdge_spec chainW 1 (by decide)⟩

/-- Claim C2: every chain exposes one child edge per segment: the child
count is the stored vertex count minus one, a non-loop chain built from
n >= 2 vertices has n - 1 children, and a loop chain built from n >= 3
vertices stores n + 1 vertices and has n children. -/
theorem Chain.getChildCount_spec (c : Chain) (vs2 vs3 : List Vec2)
    (h2 : 2 ≤ vs2.length) (h3 : 3 ≤ vs3.length) :
    c.getChildCount = (c.m_count : Int) - 1 ∧
    (Chain.construct vs2 false).getChildCount = (vs2.length : Int) - 1 ∧
    (Chain.construct vs3 true).m_count = vs3.length + 1 ∧
    (Chain.construct vs3 true).getChildCount = (vs3.length : Int) := by
  have hv2 : vs2.length ≠ 0 := by omega
  have hv3 : vs3.length ≠ 0 := by omega
  refine ⟨rfl, ?_, ?_, ?_⟩
  · simp [Chain.construct, hv2, Chain._createChain, Chain.getChildCount]
  · simp [Chain.construct, hv3, Chain._createLoop]
  · simp [Chain.construct, hv3, Chain._createLoop, Chain.getChildCount]

/-- Witness for C2 at the concrete chain chainW, a two-vertex chain input
and a three-vertex loop input. -/
theorem Chain.getChildCount_spec_witness :
    2 ≤ ([⟨0, 0⟩, ⟨1, 0⟩] : List Vec2).length ∧
    3 ≤ ([⟨0, 0⟩, ⟨1, 0⟩, ⟨1, 1⟩] : List Vec2).length ∧
    (chainW.getChildCount = (chainW.m_count : Int) - 1 ∧
     (Chain.construct [⟨0, 0⟩, ⟨1, 0⟩] false).getChildCount =
       (([⟨0, 0⟩, ⟨1, 0⟩] : List Vec2).length : Int) - 1 ∧
     (Chain.construct [⟨0, 0⟩, ⟨1, 0⟩, ⟨1, 1⟩] true).m_count =
       ([⟨0, 0⟩, ⟨1, 0⟩, ⟨1, 1⟩] : List Vec2).length + 1 ∧
     (Chain.construct [⟨0, 0⟩, ⟨1, 0⟩, ⟨1, 1⟩] true).getChildCount =
       (([⟨0, 0⟩, ⟨1, 0⟩, ⟨1, 1⟩] : List Vec2).length : Int)) :=
  ⟨by decide, by decide,
    Chain.getChildCount_spec chainW [⟨0, 0⟩, ⟨1, 0⟩] [⟨0, 0⟩, ⟨1, 0⟩, ⟨1, 1⟩]
      (by decide) (by decide)⟩

/-- Claim C3: for every chain and every valid childIndex,
computeDistanceProxy fills the proxy with exactly the two endpoints of
segment childIndex in order, getVertex childIndex then
getVertex (childIndex + 1) — which under the validity bound are the stored
vertices at childIndex and childIndex + 1 — sets the proxy vertex count to
2, and sets the proxy radius equal to the rounding radius of the
chain. -/
theorem Chain.computeDistanceProxy_spec (c : Chain) (childIndex : Nat)
    (h : childIndex + 1 < c.m_count) :
    (c.computeDistanceProxy childIndex).m_vertices =
      [c.getVertex childIndex, c.getVertex (childIndex + 1)] ∧
    (c.computeDistanceProxy childIndex).m_vertices =
      [c.m_vertices.getD childIndex Vec2.zero,
       c.m_vertices.getD (childIndex + 1) Vec2.zero] ∧
    (c.computeDistanceProxy childIndex).m_count = 2 ∧
    (c.computeDistanceProxy childIndex).m_radius = c.m_radius := by
  have h0 : childIndex < c.m_count := by omega
  refine ⟨rfl, ?_, rfl, rfl⟩
  simp [Chain.computeDistanceProxy, Chain.getVertex, h0, h]

/-- Witness for C3 at the concrete chain chainW and child index 0. -/
theorem Chain.computeDistanceProxy_spec_witness :
    0 + 1 < chainW.m_count ∧
    ((chainW.computeDistanceProxy 0).m_vertices =
      [chainW.getVertex 0, chainW.getVertex 1] ∧
     (chainW.computeDistanceProxy 0).m_vertices =
      [chainW.m_vertices.getD 0 Vec2.zero, chainW.m_vertices.getD 1 Vec2.zero] ∧
     (chainW.computeDistanceProxy 0).m_count = 2 ∧
     (chainW.computeDistanceProxy 0).m_radius = chainW.m_radius) :=
  ⟨by decide, Chain.computeDistanceProxy_spec chainW 0 (by decide)⟩

/-- Claim C4: for every chain, every transform and every valid childIndex,
the box produced by computeAABB satisfies the AABB invariant: the lower
bound is componentwise at most the upper bound. -/
theorem Chain.computeAABB_spec (c : Chain) (xf : Transform) (childIndex : Nat)
    (h : childIndex + 1 < c.m_count) :
    (c.computeAABB xf childIndex).lowerBound.x ≤
      (c.computeAABB xf childIndex).upperBound.x ∧
    (c.computeAABB xf childIndex).lowerBound.y ≤
      (c.computeAABB xf childIndex).upperBound.y := by
  constructor <;> simp [Chain.computeAABB, AABB.combinePoints, min_le_max]

/-- Witness for C4 at the concrete chain chainW, the identity transform
and child index 0. -/
theorem Chain.computeAABB_spec_witness :
    0 + 1 < chainW.m_count ∧
    ((chainW.computeAABB Transform.identity 0).lowerBound.x ≤
      (chainW.computeAABB Transform.identity 0).upperBound.x ∧
     (chainW.computeAABB Transform.identity 0).lowerBound.y ≤
      (chainW.computeAABB Transform.identity 0).upperBound.y) :=
  ⟨by decide, Chain.computeAABB_spec chainW Transform.identity 0 (by decide)⟩

/-- The loop builder with assertions disabled never reports an error. -/
theorem Chain.createLoopE_false (c : Chain) (vs : List Vec2) :
    Chain.createLoopE false c vs = Except.ok (c._createLoop vs) := rfl

/-- The chain builder with assertions disabled never reports an error. -/
theorem Chain.createChainE_false (c : Chain) (vs : List Vec2) :
    Chain.createChainE false c vs = Except.ok (c._createChain vs) := rfl

/-- Claim C5: with assertions disabled, constructing a Chain from any
vertex array — including degenerate inputs with near-zero-length segments
or fewer than the required minimum vertices — completes without raising
any error, and produces exactly the state of the assertion-free
constructor; the degenerate-input checks execute only when assertions are
enabled. -/
theorem Chain.constructE_release_total (vertices : List Vec2) (loop : Bool) :
    ∃ c, Chain.constructE false vertices loop = Except.ok c ∧
      c = Chain.construct vertices loop := by
  refine ⟨Chain.construct vertices loop, ?_, rfl⟩
  by_cases hv : vertices.length = 0
  · simp [Chain.constructE, Chain.construct, hv]
  · by_cases hl : loop
    · simp [Chain.constructE, Chain.construct, hv, hl, Chain.createLoopE_false]
    · simp [Chain.constructE, Chain.construct, hv, hl, Chain.createChainE_false]

/-- Claim C6: for every chain, ray-cast input, transform and valid
childIndex, Chain.rayCast returns the same hit or miss result and the
same output as constructing an Edge shape from getVertex childIndex and
getVertex (childIndex + 1) and ray-casting that edge with child index
0. -/
theorem Chain.rayCast_refines_edge (c : Chain) (input : RayCastInput)
    (xf : Transform) (childIndex : Nat) (h : childIndex < c.m_count) :
    c.rayCast input xf childIndex =
      (Edge.construct (c.getVertex childIndex)
        (c.getVertex (childIndex + 1))).rayCast input xf 0 := rfl

/-- Witness for C6 at the concrete chain chainW, a concrete downward ray
over the first segment, the identity transform and child index 0. -/
theorem Chain.rayCast_refines_edge_witness :
    0 < chainW.m_count ∧
    chainW.rayCast ⟨⟨1, 2⟩, ⟨1, -2⟩, 1⟩ Transform.identity 0 =
      (Edge.construct (chainW.getVertex 0)
        (chainW.getVertex 1)).rayCast ⟨⟨1, 2⟩, ⟨1, -2⟩, 1⟩ Transform.identity 0 :=
  ⟨by decide, Chain.rayCast_refines_edge chainW ⟨⟨1, 2⟩, ⟨1, -2⟩, 1⟩
    Transform.identity 0 (by decide)⟩

/-- Claim C7: for every loop chain built from n >= 3 vertices, the stored
vertex list has n + 1 entries with the last entry equal to a copy of the
first input vertex, the previous ghost vertex equals the last input
vertex, the next ghost vertex equals the second stored vertex, and both
presence flags are set. -/
theorem Chain.createLoop_spec (vs : List Vec2) (h : 3 ≤ vs.length) :
    (Chain.construct vs true).m_vertices.length = vs.length + 1 ∧
    (Chain.construct vs true).m_vertices.getLast? = some (vs.getD 0 Vec2.zero) ∧
    (Chain.construct vs true).m_prevVertex =
      some (vs.getD (vs.length - 1) Vec2.zero) ∧
    (Chain.construct vs true).m_nextVertex = some (vs.getD 1 Vec2.zero) ∧
    (Chain.construct vs true).m_hasPrevVertex = true ∧
    (Chain.construct vs true).m_hasNextVertex = true := by
  have hv : ¬ vs.length = 0 := by omega
  have hcon : Chain.construct vs true =
      Chain._createLoop { Chain.init with m_isLoop := true } vs := by
    simp [Chain.construct, hv]
  rw [hcon]
  refine ⟨?_, ?_, ?_, ?_, ?_, ?_⟩
  · simp [Chain._createLoop]
  · simp [Chain._createLoop, List.getLast?_concat]
  · simp only [Chain._createLoop]
    have e : vs.length + 1 - 2 = vs.length - 1 := by omega
    rw [e, List.getD_append _ _ _ _ (by omega)]
  · simp only [Chain._createLoop]
    rw [List.getD_append _ _ _ _ (by omega)]
  · rfl
  · rfl

/-- Witness for C7 at a concrete three-vertex loop input. -/
theorem Chain.createLoop_spec_witness :
    3 ≤ ([⟨0, 0⟩, ⟨4, 0⟩, ⟨0, 4⟩] : List Vec2).length ∧
    ((Chain.construct [⟨0, 0⟩, ⟨4, 0⟩, ⟨0, 4⟩] true).m_vertices.length =
      ([⟨0, 0⟩, ⟨4, 0⟩, ⟨0, 4⟩] : List Vec2).length + 1 ∧
     (Chain.construct [⟨0, 0⟩, ⟨4, 0⟩, ⟨0, 4⟩] true).m_vertices.getLast? =
      some (([⟨0, 0⟩, ⟨4, 0⟩, ⟨0, 4⟩] : List Vec2).getD 0 Vec2.zero) ∧
     (Chain.construct [⟨0, 0⟩, ⟨4, 0⟩, ⟨0, 4⟩] true).m_prevVertex =
      some (([⟨0, 0⟩, ⟨4, 0⟩, ⟨0, 4⟩] : List Vec2).getD
        (([⟨0, 0⟩, ⟨4, 0⟩, ⟨0, 4⟩] : List Vec2).length - 1) Vec2.zero) ∧
     (Chain.construct [⟨0, 0⟩, ⟨4, 0⟩, ⟨0, 4⟩] true).m_nextVertex =
      some (([⟨0, 0⟩, ⟨4, 0⟩, ⟨0, 4⟩] : List Vec2).getD 1 Vec2.zero) ∧
     (Chain.construct [⟨0, 0⟩, ⟨4, 0⟩, ⟨0, 4⟩] true).m_hasPrevVertex = true ∧
     (Chain.construct [⟨0, 0⟩, ⟨4, 0⟩, ⟨0, 4⟩] true).m_hasNextVertex = true) :=
  ⟨by decide, Chain.createLoop_spec [⟨0, 0⟩, ⟨4, 0⟩, ⟨0, 4⟩] (by decide)⟩

/-- Claim C8: for every chain and every density value, computeMass
returns mass 0, center (0, 0) and inertia 0: chains never contribute mass
regardless of density or vertex data. -/
theorem Chain.computeMass_spec (c : Chain) (density : ℚ) :
    c.computeMass density = { mass := 0, center := Vec2.zero, I := 0 } := rfl

/-- Claim C9: getVertex returns the stored vertex at the index when the
index is below the count, and wraps an index equal to the count back to
the first stored vertex, so a read one past the last stored vertex yields
the first vertex rather than an out-of-range entry. -/
theorem Chain.getVertex_spec (c : Chain) (index : Nat) (h : index ≤ c.m_count) :
    c.getVertex index =
      if index = c.m_count then c.m_vertices.getD 0 Vec2.zero
      else c.m_vertices.getD index Vec2.zero := by
  unfold Chain.getVertex
  rcases Nat.lt_or_ge index c.m_count with hlt | hge
  · rw [if_pos hlt, if_neg (by omega)]
  · have he : index = c.m_count := by omega
    rw [if_neg (by omega), if_pos he]

/-- Witness for C9 at the concrete chain chainW and the wrapping index
equal to its count. -/
theorem Chain.getVertex_spec_witness :
    4 ≤ chainW.m_count ∧
    chainW.getVertex 4 =
      (if (4 : Nat) = chainW.m_count then chainW.m_vertices.getD 0 Vec2.zero
       else chainW.m_vertices.getD 4 Vec2.zero) :=
  ⟨by decide, Chain.getVertex_spec chainW 4 (by decide)⟩

/-- A concrete square loop chain: vertices (0,0), (2,0), (2,2), (0,2),
closed back to (0,0) by construction. -/
def chainSquareLoop : Chain :=
  Chain.construct [⟨0, 0⟩, ⟨2, 0⟩, ⟨2, 2⟩, ⟨0, 2⟩] true

/-- Claim C10: Chain.testPoint does not always return false: it performs
an even-odd horizontal-ray crossing test of the point against the stored
vertex sequence, and for the square loop chain above, the identity
transform and the interior point (1, 1) it returns true — contradicting
the documentation comment of the source, which states that it always
returns false. -/
theorem Chain.testPoint_not_always_false :
    chainSquareLoop.testPoint Transform.identity ⟨1, 1⟩ = true := by
  have hv : chainSquareLoop.m_vertices =
      [⟨0, 0⟩, ⟨2, 0⟩, ⟨2, 2⟩, ⟨0, 2⟩, ⟨0, 0⟩] := rfl
  unfold Chain.testPoint
  rw [hv]
  rw [show List.range
        (([⟨0, 0⟩, ⟨2, 0⟩, ⟨2, 2⟩, ⟨0, 2⟩, ⟨0, 0⟩] : List Vec2).length - 1)
        = [0, 1, 2, 3] from rfl]
  simp only [List.foldl_cons, List.foldl_nil, List.getD_cons_zero,
    List.getD_cons_succ, Transform.identity, Rot.identity, Rot.mulTVec2,
    Vec2.sub, Vec2.zero]
  norm_num

end Planck
